import Mathlib

/-!
Shallow embedding of the token-security risk classifier from
`src/packages/plugin-token-trending/src/actions/findTrending.ts`
(`TokenSecurityInfo`, `calculateRiskLevel`, `getRecommendation`,
`getSecurityRiskEmoji`), together with theorems settling the spec claims.

Modelling conventions:
* TypeScript strings become `String`; the two tax fields are `Option String`
  so that a field absent at runtime (JavaScript `undefined`) is representable
  (`none`); `parseFloat` applied to `undefined` yields `NaN`, which `none`
  maps to below.
* JavaScript `parseFloat` is modelled exactly over `ℚ` (longest numeric
  prefix after leading whitespace: optional sign, digits, optional fraction,
  optional well-formed exponent, or an `Infinity` literal); `NaN` and the
  infinities are explicit constructors, so `NaN > 10` is `false` and
  `Infinity > 10` is `true`, as in JavaScript.  The only numeric operation
  the classifier performs is the comparison `> 10`, so exact rationals are a
  faithful model of the IEEE-double comparison for every input whose decimal
  value is not rounded across the boundary 10 (in particular for all the
  inputs appearing in these claims).
* The source's `calculateRiskLevel` is split, line for line, into the score
  accumulation (`computeRiskScore`, source lines 1115–1135) and the
  threshold mapping (`classify`, source lines 1137–1141); `calculateRiskLevel`
  is their composition, so nothing is lost in the split.
-/

namespace FindTrending

/-- One entry of the `dex` array of `TokenSecurityInfo`. -/
structure DexEntry where
  name : String
  liquidity_type : String
  liquidity : String
  pair : String
deriving DecidableEq, Repr

/-- One entry of the `holders` / `lp_holders` arrays of `TokenSecurityInfo`. -/
structure HolderEntry where
  address : String
  tag : Option String
  is_contract : Int
  balance : String
  percent : String
  is_locked : Int
deriving DecidableEq, Repr

/-- The `TokenSecurityInfo` interface (source lines 79–149), field for field.
Boolean flags are the raw strings delivered by the external API ("1"/"0" by
convention, but any string can occur).  `buy_tax` and `sell_tax` are
`Option String`: `none` models the field being absent at runtime. -/
structure TokenSecurityInfo where
  token_name : String
  token_symbol : String
  total_supply : String
  is_open_source : String
  is_proxy : String
  is_mintable : String
  creator_address : String
  creator_balance : String
  creator_percent : String
  is_honeypot : String
  honeypot_with_same_creator : String
  hidden_owner : String
  can_take_back_ownership : String
  owner_change_balance : String
  selfdestruct : String
  external_call : String
  buy_tax : Option String
  sell_tax : Option String
  slippage_modifiable : String
  personal_slippage_modifiable : String
  transfer_pausable : String
  anti_whale_modifiable : String
  trading_cooldown : String
  is_blacklisted : String
  is_whitelisted : String
  is_anti_whale : String
  cannot_buy : String
  cannot_sell_all : String
  is_in_dex : String
  dex : Option (List DexEntry)
  holder_count : String
  holders : Option (List HolderEntry)
  lp_holder_count : String
  lp_total_supply : String
  lp_holders : Option (List HolderEntry)
deriving DecidableEq, Repr

/-- Result of JavaScript `parseFloat`: a finite rational, a signed infinity,
or `NaN`. -/
inductive JSNumber where
  | nan : JSNumber
  | inf (neg : Bool) : JSNumber
  | num (q : ℚ) : JSNumber
deriving DecidableEq, Repr

/-- The JavaScript comparison `x > c` for `x` a `parseFloat` result and `c` a
finite number: `NaN > c` is `false`, `Infinity > c` is `true`,
`-Infinity > c` is `false`. -/
def JSNumber.gtNum (x : JSNumber) (c : ℚ) : Bool :=
  match x with
  | .nan => false
  | .inf neg => !neg
  | .num q => decide (c < q)

/-- Numeric value of a list of decimal digit characters (most significant
first). -/
def digitsVal (l : List Char) : ℕ :=
  l.foldl (fun a c => 10 * a + (c.toNat - 48)) 0

/-- Split a leading run of decimal digits off a character list. -/
def takeDigits (cs : List Char) : List Char × List Char :=
  (cs.takeWhile Char.isDigit, cs.dropWhile Char.isDigit)

/-- Parse an optional exponent part (`e`/`E`, optional sign, digits) at the
head of `cs`.  As in JavaScript, the exponent is consumed only when it is
well formed (at least one digit); otherwise it contributes `0` and consumes
nothing (`parseFloat("1e") = 1`). -/
def parseExponent (cs : List Char) : ℤ :=
  match cs with
  | c :: rest =>
    if c = 'e' ∨ c = 'E' then
      match rest with
      | s :: rest2 =>
        if s = '+' ∨ s = '-' then
          let ds := (takeDigits rest2).1
          if ds.isEmpty then 0
          else if s = '-' then -(digitsVal ds : ℤ) else (digitsVal ds : ℤ)
        else
          let ds := (takeDigits rest).1
          if ds.isEmpty then 0 else (digitsVal ds : ℤ)
      | [] => 0
    else 0
  | [] => 0

/-- Parse the longest unsigned decimal literal at the head of `cs`
(digits, optional `.` with more digits, optional exponent); `none` when not
even one digit is present (so `parseFloat(".") = NaN` but
`parseFloat(".5") = 0.5` and `parseFloat("1.") = 1`).  The value is built as
one exact fraction, `digits(ipart ++ fpart) · 10^max(e,0) /
10^(|fpart| + max(-e,0))`, which equals `(I + F/10^|fpart|) · 10^e`. -/
def parseDecimal (cs : List Char) : Option ℚ :=
  let ipart := (takeDigits cs).1
  let rest := (takeDigits cs).2
  let fpart :=
    match rest with
    | '.' :: r => (takeDigits r).1
    | _ => []
  let rest2 :=
    match rest with
    | '.' :: r => (takeDigits r).2
    | _ => rest
  if ipart.isEmpty ∧ fpart.isEmpty then none
  else
    let e := parseExponent rest2
    some (mkRat (digitsVal (ipart ++ fpart) * 10 ^ e.toNat)
                (10 ^ (fpart.length + (-e).toNat)))

/-- JavaScript `parseFloat` on a possibly-absent string: skip leading
whitespace, read an optional sign, then either an `Infinity` literal or the
longest decimal literal; anything else (including an absent field) is `NaN`. -/
def parseFloat (s : Option String) : JSNumber :=
  match s with
  | none => .nan
  | some str =>
    let cs := str.toList.dropWhile Char.isWhitespace
    let signed : Bool × List Char :=
      match cs with
      | '-' :: r => (true, r)
      | '+' :: r => (false, r)
      | _ => (false, cs)
    if signed.2.take 8 = "Infinity".toList then .inf signed.1
    else
      match parseDecimal signed.2 with
      | none => .nan
      | some q => .num (if signed.1 then -q else q)

/-- The tax condition of source line 1127:
`parseFloat(info.buy_tax) > 10 || parseFloat(info.sell_tax) > 10`. -/
def taxTrigger (info : TokenSecurityInfo) : Bool :=
  (parseFloat info.buy_tax).gtNum 10 || (parseFloat info.sell_tax).gtNum 10

/-- Score accumulation of `calculateRiskLevel` (source lines 1115–1135),
with the summands in the source's order. -/
def computeRiskScore (info : TokenSecurityInfo) : ℤ :=
  (if info.is_honeypot = "1" then 100 else 0)
  + (if info.hidden_owner = "1" then 90 else 0)
  + (if info.selfdestruct = "1" then 80 else 0)
  + (if info.honeypot_with_same_creator = "1" then 100 else 0)
  + (if info.can_take_back_ownership = "1" then 70 else 0)
  + (if info.is_open_source = "0" then 60 else 0)
  + (if taxTrigger info then 70 else 0)
  + (if info.is_mintable = "1" then 40 else 0)
  + (if info.transfer_pausable = "1" then 30 else 0)
  + (if info.is_proxy = "1" then 20 else 0)
  + (if info.trading_cooldown = "1" then 30 else 0)

/-- Threshold mapping of `calculateRiskLevel` (source lines 1137–1141). -/
def classify (score : ℤ) : String :=
  if score ≥ 100 then "CRITICAL"
  else if score ≥ 70 then "HIGH"
  else if score ≥ 40 then "MEDIUM"
  else if score ≥ 20 then "LOW"
  else "SAFE"

/-- `calculateRiskLevel` (source lines 1115–1142): accumulate the weighted
score, then map it through the thresholds. -/
def calculateRiskLevel (info : TokenSecurityInfo) : String :=
  classify (computeRiskScore info)

/-- `getRecommendation` (source lines 1144–1159). -/
def getRecommendation (riskLevel : String) : String :=
  if riskLevel = "CRITICAL" then
    "🚫 *RECOMMENDATION:* Do not interact with this token. Multiple critical security risks detected."
  else if riskLevel = "HIGH" then
    "⚠️ *RECOMMENDATION:* Extreme caution advised. High-risk security issues present."
  else if riskLevel = "MEDIUM" then
    "⚡ *RECOMMENDATION:* Proceed with caution. Some security concerns identified."
  else if riskLevel = "LOW" then
    "📊 *RECOMMENDATION:* Generally safe, but always conduct your own research."
  else if riskLevel = "SAFE" then
    "✅ *RECOMMENDATION:* Token appears safe based on security analysis."
  else
    "❓ *RECOMMENDATION:* Insufficient data to make a recommendation."

/-- `getSecurityRiskEmoji` (source lines 1008–1023). -/
def getSecurityRiskEmoji (riskLevel : String) : String :=
  if riskLevel = "CRITICAL" then "🚨"
  else if riskLevel = "HIGH" then "⚠️"
  else if riskLevel = "MEDIUM" then "⚡"
  else if riskLevel = "LOW" then "📊"
  else if riskLevel = "SAFE" then "✅"
  else "❓"

/-- Severity rank of a tier string, encoding the spec's order
SAFE < LOW < MEDIUM < HIGH < CRITICAL (any non-tier string is ranked above
all tiers; `classify` never produces one). -/
def tierRank (tier : String) : ℕ :=
  if tier = "SAFE" then 0
  else if tier = "LOW" then 1
  else if tier = "MEDIUM" then 2
  else if tier = "HIGH" then 3
  else if tier = "CRITICAL" then 4
  else 5

end FindTrending

namespace FindTrending

/-- A concrete `TokenSecurityInfo` record in which every boolean flag field is
the literal string "0" and both tax fields are absent. -/
def allFlagsZeroInfo : TokenSecurityInfo :=
  { token_name := "TOK", token_symbol := "TOK", total_supply := "1000"
  , is_open_source := "0", is_proxy := "0", is_mintable := "0"
  , creator_address := "0xabc", creator_balance := "0", creator_percent := "0"
  , is_honeypot := "0", honeypot_with_same_creator := "0", hidden_owner := "0"
  , can_take_back_ownership := "0", owner_change_balance := "0"
  , selfdestruct := "0", external_call := "0"
  , buy_tax := none, sell_tax := none
  , slippage_modifiable := "0", personal_slippage_modifiable := "0"
  , transfer_pausable := "0", anti_whale_modifiable := "0"
  , trading_cooldown := "0", is_blacklisted := "0", is_whitelisted := "0"
  , is_anti_whale := "0", cannot_buy := "0", cannot_sell_all := "0"
  , is_in_dex := "0", dex := none, holder_count := "10", holders := none
  , lp_holder_count := "0", lp_total_supply := "0", lp_holders := none }

end FindTrending

namespace FindTrending

/-- C1: for every `TokenSecurityInfo` record, `computeRiskScore` is exactly the
sum, starting from 0, of the fixed weights of the triggered conditions, listed
here in the claim's order: 100 honeypot, 100 honeypot-shared-with-creator,
90 hidden owner, 80 self-destructible, 70 can-reclaim-ownership, 70 when the
buy tax or the sell tax parses to a number greater than 10 (a single weight
for the disjunction), 60 not open-source (`is_open_source = "0"` in the
source's encoding), 40 mintable, 30 trading-cooldown, 30 transfer-pausable,
20 proxy — no cap, no deduplication. -/
theorem computeRiskScore_weighted_sum (info : TokenSecurityInfo) :
    computeRiskScore info =
      (if info.is_honeypot = "1" then 100 else 0)
      + (if info.honeypot_with_same_creator = "1" then 100 else 0)
      + (if info.hidden_owner = "1" then 90 else 0)
      + (if info.selfdestruct = "1" then 80 else 0)
      + (if info.can_take_back_ownership = "1" then 70 else 0)
      + (if (parseFloat info.buy_tax).gtNum 10 || (parseFloat info.sell_tax).gtNum 10
          then 70 else 0)
      + (if info.is_open_source = "0" then 60 else 0)
      + (if info.is_mintable = "1" then 40 else 0)
      + (if info.trading_cooldown = "1" then 30 else 0)
      + (if info.transfer_pausable = "1" then 30 else 0)
      + (if info.is_proxy = "1" then 20 else 0) := by
  simp only [computeRiskScore, taxTrigger]
  ring

/-- C2: `classify` maps an integer score to a tier by ordered thresholds,
highest first, first match winning, boundaries inclusive on the upper tier:
the tiers characterize exactly the intervals [100, ∞), [70, 100), [40, 70),
[20, 40), (-∞, 20), and the boundary scores 20, 40, 70, 100 map to LOW,
MEDIUM, HIGH, CRITICAL. -/
theorem classify_ordered_thresholds (score : ℤ) :
    (classify score = "CRITICAL" ↔ 100 ≤ score)
    ∧ (classify score = "HIGH" ↔ 70 ≤ score ∧ score < 100)
    ∧ (classify score = "MEDIUM" ↔ 40 ≤ score ∧ score < 70)
    ∧ (classify score = "LOW" ↔ 20 ≤ score ∧ score < 40)
    ∧ (classify score = "SAFE" ↔ score < 20)
    ∧ classify 20 = "LOW" ∧ classify 40 = "MEDIUM"
    ∧ classify 70 = "HIGH" ∧ classify 100 = "CRITICAL" := by
  refine ⟨?_, ?_, ?_, ?_, ?_, by decide, by decide, by decide, by decide⟩ <;>
    (unfold classify; split_ifs <;> constructor <;> intro h <;>
      first
        | omega
        | exact absurd h (by decide)
        | exact absurd h.1 (by omega)
        | rfl)

end FindTrending

namespace FindTrending

/-- A record with every boolean flag "0" except `is_open_source = "1"`
(i.e. open source), tax fields one malformed and one absent. -/
def benignMalformedTaxInfo : TokenSecurityInfo :=
  { allFlagsZeroInfo with is_open_source := "1", buy_tax := some "abc" }

/-- The same benign record with `buy_tax = "15"`. -/
def benignTax15Info : TokenSecurityInfo :=
  { allFlagsZeroInfo with is_open_source := "1", buy_tax := some "15" }

/-- C3 counterexample: in a record where every boolean flag field is the
literal string "0" and both tax fields are absent, the score is 60 and the
tier is MEDIUM, not 0 and SAFE as the claim states — `is_open_source = "0"`
means the token is not open-source, which itself carries weight 60. -/
theorem allFlagsZero_scores_sixty :
    computeRiskScore allFlagsZeroInfo = 60
    ∧ calculateRiskLevel allFlagsZeroInfo = "MEDIUM"
    ∧ ¬(computeRiskScore allFlagsZeroInfo = 0
        ∧ calculateRiskLevel allFlagsZeroInfo = "SAFE") := by
  decide

/-- C3 amended: for every record in which `is_open_source` is "1" (the token
is open-source) and every other boolean flag field is the literal string "0":
if no tax field parses to a number greater than 10 (including absent or
malformed tax fields such as "abc"), the score is 0 and the tier SAFE; and if
`buy_tax` is "15", the score is 70 and the tier HIGH. -/
theorem benign_flags_risk (info : TokenSecurityInfo)
    (hos : info.is_open_source = "1")
    (hpx : info.is_proxy = "0") (hmt : info.is_mintable = "0")
    (hhp : info.is_honeypot = "0") (hhc : info.honeypot_with_same_creator = "0")
    (hho : info.hidden_owner = "0") (hct : info.can_take_back_ownership = "0")
    (_hob : info.owner_change_balance = "0") (hsd : info.selfdestruct = "0")
    (_hec : info.external_call = "0") (_hsm : info.slippage_modifiable = "0")
    (_hpm : info.personal_slippage_modifiable = "0")
    (htp : info.transfer_pausable = "0") (_haw : info.anti_whale_modifiable = "0")
    (htc : info.trading_cooldown = "0") (_hbl : info.is_blacklisted = "0")
    (_hwl : info.is_whitelisted = "0") (_hia : info.is_anti_whale = "0")
    (_hcb : info.cannot_buy = "0") (_hcs : info.cannot_sell_all = "0")
    (_hix : info.is_in_dex = "0") :
    (taxTrigger info = false →
      computeRiskScore info = 0 ∧ calculateRiskLevel info = "SAFE")
    ∧ (info.buy_tax = some "15" →
      computeRiskScore info = 70 ∧ calculateRiskLevel info = "HIGH") := by
  constructor
  · intro h
    have hs : computeRiskScore info = 0 := by
      simp [computeRiskScore, h, hos, hpx, hmt, hhp, hhc, hho, hct, hsd, htp, htc]
    exact ⟨hs, by rw [calculateRiskLevel, hs]; decide⟩
  · intro hb
    have htr : taxTrigger info = true := by
      rw [taxTrigger, hb]
      have h15 : (parseFloat (some "15")).gtNum 10 = true := by decide
      rw [h15, Bool.true_or]
    have hs : computeRiskScore info = 70 := by
      simp [computeRiskScore, htr, hos, hpx, hmt, hhp, hhc, hho, hct, hsd, htp, htc]
    exact ⟨hs, by rw [calculateRiskLevel, hs]; decide⟩

/-- C3 witness: the amended theorem applied to concrete records — the benign
record with a malformed and an absent tax scores 0 / SAFE, and the benign
record with `buy_tax = "15"` scores 70 / HIGH. -/
theorem benign_flags_risk_witness :
    (computeRiskScore benignMalformedTaxInfo = 0
      ∧ calculateRiskLevel benignMalformedTaxInfo = "SAFE")
    ∧ (computeRiskScore benignTax15Info = 70
      ∧ calculateRiskLevel benignTax15Info = "HIGH") :=
  ⟨(benign_flags_risk benignMalformedTaxInfo rfl rfl rfl rfl rfl rfl rfl rfl rfl
      rfl rfl rfl rfl rfl rfl rfl rfl rfl rfl rfl rfl).1 (by decide),
   (benign_flags_risk benignTax15Info rfl rfl rfl rfl rfl rfl rfl rfl rfl
      rfl rfl rfl rfl rfl rfl rfl rfl rfl rfl rfl rfl).2 rfl⟩

end FindTrending

namespace FindTrending

/-- A record with `is_open_source` the empty string (neither "1" nor "0") and
every other boolean flag "0", tax fields absent. -/
def emptyOpenSourceInfo : TokenSecurityInfo :=
  { allFlagsZeroInfo with is_open_source := "" }

/-- C4 counterexample: `is_open_source = ""` is a value other than "1", so the
claim says the not-open-source condition fires and contributes 60; but the
source tests `is_open_source === "0"` exactly, so the record scores 0 — the
same as with `is_open_source = "1"`, i.e. no 60 contribution at all. -/
theorem emptyOpenSource_not_triggered :
    emptyOpenSourceInfo.is_open_source ≠ "1"
    ∧ computeRiskScore emptyOpenSourceInfo = 0
    ∧ computeRiskScore { emptyOpenSourceInfo with is_open_source := "1" } = 0
    ∧ calculateRiskLevel emptyOpenSourceInfo = "SAFE" := by
  decide

/-- C4 amended: the not-open-source condition compares `is_open_source` to the
literal string "0" exactly, not to "anything other than 1": for every record,
the score is the score of the same record with `is_open_source` set to "1"
plus 60 exactly when `is_open_source = "0"`, and plus nothing for any other
value, malformed or empty values included. -/
theorem openSource_weight_exact_zero_match (info : TokenSecurityInfo) :
    computeRiskScore info =
      computeRiskScore { info with is_open_source := "1" }
      + (if info.is_open_source = "0" then 60 else 0) := by
  simp only [computeRiskScore, taxTrigger]
  rw [if_neg (by decide : ¬ (("1" : String) = "0"))]
  ring

end FindTrending

namespace FindTrending

/-- A record with one risk flag set, a malformed buy tax and an absent sell
tax. -/
def honeypotMalformedTaxInfo : TokenSecurityInfo :=
  { allFlagsZeroInfo with
    is_honeypot := "1", is_open_source := "1",
    buy_tax := some "abc", sell_tax := none }

/-- C5: the classifier is total — `computeRiskScore` and `calculateRiskLevel`
are Lean functions defined on every `TokenSecurityInfo` value, so they return
a result on every record by construction — and fails open on taxes: whenever
both tax fields parse to `NaN` (which covers absent fields, since
`parseFloat none = NaN`, and non-numeric ones such as "abc"), the tax
condition does not fire, and the score is the sum over the remaining ten
conditions alone, with no tax weight. -/
theorem malformed_tax_fails_open (info : TokenSecurityInfo)
    (hb : parseFloat info.buy_tax = JSNumber.nan)
    (hs : parseFloat info.sell_tax = JSNumber.nan) :
    taxTrigger info = false
    ∧ computeRiskScore info =
        (if info.is_honeypot = "1" then 100 else 0)
        + (if info.hidden_owner = "1" then 90 else 0)
        + (if info.selfdestruct = "1" then 80 else 0)
        + (if info.honeypot_with_same_creator = "1" then 100 else 0)
        + (if info.can_take_back_ownership = "1" then 70 else 0)
        + (if info.is_open_source = "0" then 60 else 0)
        + (if info.is_mintable = "1" then 40 else 0)
        + (if info.transfer_pausable = "1" then 30 else 0)
        + (if info.is_proxy = "1" then 20 else 0)
        + (if info.trading_cooldown = "1" then 30 else 0) := by
  have htr : taxTrigger info = false := by
    rw [taxTrigger, hb, hs]
    rfl
  refine ⟨htr, ?_⟩
  simp only [computeRiskScore, htr]
  norm_num

/-- C5 witness: `parseFloat` yields `NaN` on the absent field and on "abc",
and the theorem applied to the concrete record with a honeypot flag, a
malformed buy tax and an absent sell tax gives no tax weight and score 100. -/
theorem malformed_tax_fails_open_witness :
    parseFloat (some "abc") = JSNumber.nan
    ∧ parseFloat none = JSNumber.nan
    ∧ taxTrigger honeypotMalformedTaxInfo = false
    ∧ computeRiskScore honeypotMalformedTaxInfo = 100 :=
  ⟨by decide, by decide,
   (malformed_tax_fails_open honeypotMalformedTaxInfo (by decide) (by decide)).1,
   ((malformed_tax_fails_open honeypotMalformedTaxInfo (by decide) (by decide)).2).trans
     (by decide)⟩

/-- C6: `classify` is monotone with respect to the severity order
SAFE < LOW < MEDIUM < HIGH < CRITICAL: a lower-or-equal score is never mapped
to a strictly more severe tier. -/
theorem classify_monotone (s1 s2 : ℤ) (h : s1 ≤ s2) :
    tierRank (classify s1) ≤ tierRank (classify s2) := by
  unfold classify
  split_ifs <;> first | decide | omega

/-- C6 witness: the monotonicity theorem applied at the concrete scores
30 ≤ 80. -/
theorem classify_monotone_witness :
    tierRank (classify 30) ≤ tierRank (classify 80) :=
  classify_monotone 30 80 (by decide)

end FindTrending

namespace FindTrending

/-- C7: the classifier is a pure, deterministic mapping from the input record
alone: two records that agree field by field (all thirty-five fields of
`TokenSecurityInfo`) receive the same score and the same tier; in the
embedding the result types are plain functions of the record, so there is no
other state a run could depend on. -/
theorem classifier_deterministic (i1 i2 : TokenSecurityInfo)
    (h1 : i1.token_name = i2.token_name)
    (h2 : i1.token_symbol = i2.token_symbol)
    (h3 : i1.total_supply = i2.total_supply)
    (h4 : i1.is_open_source = i2.is_open_source)
    (h5 : i1.is_proxy = i2.is_proxy)
    (h6 : i1.is_mintable = i2.is_mintable)
    (h7 : i1.creator_address = i2.creator_address)
    (h8 : i1.creator_balance = i2.creator_balance)
    (h9 : i1.creator_percent = i2.creator_percent)
    (h10 : i1.is_honeypot = i2.is_honeypot)
    (h11 : i1.honeypot_with_same_creator = i2.honeypot_with_same_creator)
    (h12 : i1.hidden_owner = i2.hidden_owner)
    (h13 : i1.can_take_back_ownership = i2.can_take_back_ownership)
    (h14 : i1.owner_change_balance = i2.owner_change_balance)
    (h15 : i1.selfdestruct = i2.selfdestruct)
    (h16 : i1.external_call = i2.external_call)
    (h17 : i1.buy_tax = i2.buy_tax)
    (h18 : i1.sell_tax = i2.sell_tax)
    (h19 : i1.slippage_modifiable = i2.slippage_modifiable)
    (h20 : i1.personal_slippage_modifiable = i2.personal_slippage_modifiable)
    (h21 : i1.transfer_pausable = i2.transfer_pausable)
    (h22 : i1.anti_whale_modifiable = i2.anti_whale_modifiable)
    (h23 : i1.trading_cooldown = i2.trading_cooldown)
    (h24 : i1.is_blacklisted = i2.is_blacklisted)
    (h25 : i1.is_whitelisted = i2.is_whitelisted)
    (h26 : i1.is_anti_whale = i2.is_anti_whale)
    (h27 : i1.cannot_buy = i2.cannot_buy)
    (h28 : i1.cannot_sell_all = i2.cannot_sell_all)
    (h29 : i1.is_in_dex = i2.is_in_dex)
    (h30 : i1.dex = i2.dex)
    (h31 : i1.holder_count = i2.holder_count)
    (h32 : i1.holders = i2.holders)
    (h33 : i1.lp_holder_count = i2.lp_holder_count)
    (h34 : i1.lp_total_supply = i2.lp_total_supply)
    (h35 : i1.lp_holders = i2.lp_holders) :
    computeRiskScore i1 = computeRiskScore i2
    ∧ calculateRiskLevel i1 = calculateRiskLevel i2 := by
  have heq : i1 = i2 := by
    cases i1
    cases i2
    simp_all
  rw [heq]
  exact ⟨rfl, rfl⟩

/-- C7 witness: the determinism theorem applied to the concrete record
`allFlagsZeroInfo` in both argument positions, every field-equality hypothesis
discharged by `rfl`. -/
theorem classifier_deterministic_witness :
    computeRiskScore allFlagsZeroInfo = computeRiskScore allFlagsZeroInfo
    ∧ calculateRiskLevel allFlagsZeroInfo = calculateRiskLevel allFlagsZeroInfo :=
  classifier_deterministic allFlagsZeroInfo allFlagsZeroInfo
    rfl rfl rfl rfl rfl rfl rfl rfl rfl rfl rfl rfl rfl rfl rfl rfl rfl rfl
    rfl rfl rfl rfl rfl rfl rfl rfl rfl rfl rfl rfl rfl rfl rfl rfl rfl

/-- C8: `getRecommendation` is a fixed lookup table: each of the five tiers
maps to one fixed advisory string, the five strings are pairwise distinct, the
CRITICAL text says not to interact with the token, and the SAFE text says the
token appears safe. -/
theorem getRecommendation_lookup_table :
    getRecommendation "CRITICAL" =
      "🚫 *RECOMMENDATION:* Do not interact with this token. Multiple critical security risks detected."
    ∧ getRecommendation "HIGH" =
      "⚠️ *RECOMMENDATION:* Extreme caution advised. High-risk security issues present."
    ∧ getRecommendation "MEDIUM" =
      "⚡ *RECOMMENDATION:* Proceed with caution. Some security concerns identified."
    ∧ getRecommendation "LOW" =
      "📊 *RECOMMENDATION:* Generally safe, but always conduct your own research."
    ∧ getRecommendation "SAFE" =
      "✅ *RECOMMENDATION:* Token appears safe based on security analysis."
    ∧ ("Do not interact".toList).IsInfix ((getRecommendation "CRITICAL").toList)
    ∧ ("appears safe".toList).IsInfix ((getRecommendation "SAFE").toList)
    ∧ List.Pairwise (fun a b => a ≠ b)
        [getRecommendation "CRITICAL", getRecommendation "HIGH",
         getRecommendation "MEDIUM", getRecommendation "LOW",
         getRecommendation "SAFE"] := by
  decide

end FindTrending

namespace FindTrending

/-- A record agreeing with `allFlagsZeroInfo` on the twelve fields the
classifier reads, but differing on many of the remaining fields, including
anti-whale and trading flags, identity fields, holder and DEX data. -/
def noisyOtherFieldsInfo : TokenSecurityInfo :=
  { allFlagsZeroInfo with
    token_name := "OTHER", token_symbol := "OTR", total_supply := "99",
    creator_address := "0xdef", creator_balance := "5", creator_percent := "5",
    owner_change_balance := "1", external_call := "1",
    slippage_modifiable := "1", personal_slippage_modifiable := "1",
    anti_whale_modifiable := "1", is_blacklisted := "1",
    is_whitelisted := "1", is_anti_whale := "1", cannot_buy := "1",
    cannot_sell_all := "1", is_in_dex := "1",
    dex := some [{ name := "dexA", liquidity_type := "UniV2",
                   liquidity := "1000", pair := "0x1234567890" }],
    holder_count := "777",
    holders := some [{ address := "0x9876543210", tag := some "whale",
                       is_contract := 0, balance := "1", percent := "50",
                       is_locked := 0 }],
    lp_holder_count := "3", lp_total_supply := "42", lp_holders := some [] }

/-- C9: the classifier reads only the twelve fields `is_honeypot`,
`honeypot_with_same_creator`, `hidden_owner`, `selfdestruct`,
`can_take_back_ownership`, `is_open_source`, `buy_tax`, `sell_tax`,
`is_mintable`, `transfer_pausable`, `is_proxy` and `trading_cooldown`: two
records that agree on those twelve fields get the same score and the same
tier no matter how all other fields differ. -/
theorem classifier_reads_twelve_fields (i1 i2 : TokenSecurityInfo)
    (h1 : i1.is_honeypot = i2.is_honeypot)
    (h2 : i1.honeypot_with_same_creator = i2.honeypot_with_same_creator)
    (h3 : i1.hidden_owner = i2.hidden_owner)
    (h4 : i1.selfdestruct = i2.selfdestruct)
    (h5 : i1.can_take_back_ownership = i2.can_take_back_ownership)
    (h6 : i1.is_open_source = i2.is_open_source)
    (h7 : i1.buy_tax = i2.buy_tax)
    (h8 : i1.sell_tax = i2.sell_tax)
    (h9 : i1.is_mintable = i2.is_mintable)
    (h10 : i1.transfer_pausable = i2.transfer_pausable)
    (h11 : i1.is_proxy = i2.is_proxy)
    (h12 : i1.trading_cooldown = i2.trading_cooldown) :
    computeRiskScore i1 = computeRiskScore i2
    ∧ calculateRiskLevel i1 = calculateRiskLevel i2 := by
  have hs : computeRiskScore i1 = computeRiskScore i2 := by
    simp only [computeRiskScore, taxTrigger, h1, h2, h3, h4, h5, h6, h7, h8,
      h9, h10, h11, h12]
  refine ⟨hs, ?_⟩
  rw [calculateRiskLevel, calculateRiskLevel, hs]

/-- C9 witness: the twelve-field theorem applied to `allFlagsZeroInfo` and the
record differing from it on sixteen other fields (anti-whale, blacklist,
trading restrictions, identity, holder and DEX data): both score 60 / MEDIUM. -/
theorem classifier_reads_twelve_fields_witness :
    computeRiskScore allFlagsZeroInfo = computeRiskScore noisyOtherFieldsInfo
    ∧ calculateRiskLevel allFlagsZeroInfo = calculateRiskLevel noisyOtherFieldsInfo :=
  classifier_reads_twelve_fields allFlagsZeroInfo noisyOtherFieldsInfo
    rfl rfl rfl rfl rfl rfl rfl rfl rfl rfl rfl rfl

/-- C10: for every record the tier is one of exactly the five strings
CRITICAL, HIGH, MEDIUM, LOW, SAFE, so the fallback branches of
`getRecommendation` (the "Insufficient data" text) and of
`getSecurityRiskEmoji` (the "❓" emoji) are unreachable on classifier
output. -/
theorem calculateRiskLevel_closed_tier_set (info : TokenSecurityInfo) :
    (calculateRiskLevel info = "CRITICAL" ∨ calculateRiskLevel info = "HIGH"
      ∨ calculateRiskLevel info = "MEDIUM" ∨ calculateRiskLevel info = "LOW"
      ∨ calculateRiskLevel info = "SAFE")
    ∧ getRecommendation (calculateRiskLevel info) ≠
        "❓ *RECOMMENDATION:* Insufficient data to make a recommendation."
    ∧ getSecurityRiskEmoji (calculateRiskLevel info) ≠ "❓" := by
  have h5 : calculateRiskLevel info = "CRITICAL"
      ∨ calculateRiskLevel info = "HIGH"
      ∨ calculateRiskLevel info = "MEDIUM"
      ∨ calculateRiskLevel info = "LOW"
      ∨ calculateRiskLevel info = "SAFE" := by
    unfold calculateRiskLevel classify
    split_ifs <;> decide
  refine ⟨h5, ?_, ?_⟩ <;>
    rcases h5 with h | h | h | h | h <;> rw [h] <;> decide

end FindTrending
